import Mathlib
/-!
Shallow embedding of the website audit library (`src/lib/audit.ts`) and
verification of its specification claims.

Network effects (the global `fetch`, `new URL` parsing by the WHATWG URL
platform class, `Math.random`) are modelled as an explicit environment of
oracle functions; every piece of audit logic is translated from the source
into a pure Lean function over that environment.
-/

/-! ## String helpers modelling the JavaScript primitives used by the source -/

/-- Character-list version of JavaScript `String.prototype.startsWith`. -/
def charsStartWith : List Char → List Char → Bool
  | [], _ => true
  | _ :: _, [] => false
  | p :: ps, c :: cs => p == c && charsStartWith ps cs

/-- Character-list substring search, used to model `String.prototype.includes`. -/
def charsContain : List Char → List Char → Bool
  | [], pat => pat.isEmpty
  | s@(_ :: tl), pat => charsStartWith pat s || charsContain tl pat

/-- Model of JavaScript `s.includes(pat)`. -/
def strContains (s pat : String) : Bool :=
  charsContain s.toList pat.toList

/-- Model of JavaScript `s.startsWith(pat)`. -/
def strStartsWith (s pat : String) : Bool :=
  charsStartWith pat.toList s.toList

/-- Whitespace characters stripped by JavaScript `String.prototype.trim`. -/
def jsWhitespace (c : Char) : Bool :=
  c == ' ' || c == '\t' || c == '\n' || c == '\r' || c == '\x0b' || c == '\x0c'

/-- Model of JavaScript `s.trim()`. -/
def strTrim (s : String) : String :=
  String.mk (((s.toList.dropWhile jsWhitespace).reverse.dropWhile jsWhitespace).reverse)

/-- Model of JavaScript `s.toLowerCase()` (ASCII case folding suffices for the
patterns the source matches case-insensitively). -/
def strToLower (s : String) : String :=
  String.mk (s.toList.map Char.toLower)

/-- Model of JavaScript `Math.round`: round half toward positive infinity,
`Math.round(x) = ⌊x + 1/2⌋`. -/
def jsRound (q : ℚ) : Int := Int.floor (q + 1 / 2)

/-! ## Result record types (`src/lib/audit.ts` lines 3–55) -/

/-- Type `ImageIssue` from the source: flags computed by `analyzeImages`. -/
structure ImageIssue where
  src : String
  alt : Bool
  missingFormats : Bool
  oversized : Bool
deriving DecidableEq, Repr

/-- Type `LinkIssue` from the source: one entry of the broken-link sample. -/
structure LinkIssue where
  url : String
  statusCode : Option Int
  broken : Bool
deriving DecidableEq, Repr

/-- The `type` tag of a `RedirectIssue` (`'www' | 'non-www' | 'http-https' | 'other'`). -/
inductive RedirectType where
  | www
  | nonWww
  | httpHttps
  | other
deriving DecidableEq, Repr

/-- Type `RedirectIssue` from the source. -/
structure RedirectIssue where
  type : RedirectType
  message : String
deriving DecidableEq, Repr

/-- Type `AuditResult` from the source; optional TypeScript fields become `Option`. -/
structure AuditResult where
  url : String
  status : Option Int
  responseTimeMs : Option Nat
  contentType : Option String
  title : Option String
  metaDescription : Option String
  h1Count : Option Nat
  totalImages : Option Nat
  imgWithoutAlt : Option Nat
  imageIssues : Option (List ImageIssue)
  totalLinks : Option Nat
  brokenLinks : Option (List LinkIssue)
  externalLinks : Option Nat
  scriptsCount : Option Nat
  inlineStylesCount : Option Nat
  hasRobots : Option Bool
  hasSitemap : Option Bool
  ttfbMs : Option Int
  fcpMs : Option Int
  lcpMs : Option Int
  hasViewport : Option Bool
  responsive : Option Bool
  isHttps : Option Bool
  hasHsts : Option Bool
  hasMixedContent : Option Bool
  redirects : Option (List RedirectIssue)
  score : Option Int
  error : Option String
deriving DecidableEq, Repr

/-! ## Scorer (`calculateScore`, lines 198–209) -/

/-- Direct translation of `calculateScore`; `x ?? d` becomes `Option.getD`. -/
def calculateScore (result : AuditResult) : Int :=
  let score : Int := 100
  let score := if !(result.isHttps.getD false) then score - 15 else score
  let score := if !(result.hasViewport.getD false) then score - 10 else score
  let score := if 0 < result.imgWithoutAlt.getD 0 then
      score - min 5 ((result.imgWithoutAlt.getD 0 : Int)) else score
  let score := if 0 < (result.brokenLinks.getD []).length then
      score - min 10 (((result.brokenLinks.getD []).length : Int) * 2) else score
  let score := if result.hasMixedContent.getD false then score - 10 else score
  let score := if 3000 < result.responseTimeMs.getD 0 then score - 5 else score
  max 0 score

/-! ## Performance estimator (`estimateMetrics`, lines 66–78) -/

/-- Direct translation of `estimateMetrics`; the `Math.random()` sample is the
explicit `rand` argument, and JavaScript floating arithmetic is modelled in `ℚ`.
Returns `(ttfb, fcp, lcp)`. -/
def estimateMetrics (responseTimeMs : Nat) (htmlSize : Nat) (rand : ℚ) : ℚ × ℚ × ℚ :=
  let ttfb : ℚ := max ((responseTimeMs : ℚ) - 50) 0
  let fcpBase : ℚ := ttfb + min ((htmlSize : ℚ) / 100) 500
  let lcp : ℚ := fcpBase + rand * 800
  (ttfb, fcpBase, lcp)

/-! ## Image inspector (`analyzeImages`, lines 97–118) -/

/-- An `<img>` element as cheerio hands it over: its `src` and `alt` attributes,
each possibly absent. -/
structure Image where
  src : Option String
  alt : Option String
deriving DecidableEq, Repr

/-- Loop body of `analyzeImages`: the issue record built for one image.
The stored `src` is truncated to 80 characters; the flags are computed on the
untruncated `src`. -/
def mkImageIssue (im : Image) : ImageIssue :=
  let src := im.src.getD ""
  { src := src.take 80
    alt := im.alt.isNone || strTrim (im.alt.getD "") == ""
    missingFormats := !(strContains src ".webp")
    oversized := strContains src "large" || strContains src "big" || strContains src "original" }

/-- The `each` loop of `analyzeImages`: push the issue when any flag is set. -/
def analyzeImagesGo : List Image → List ImageIssue
  | [] => []
  | im :: rest =>
    let issue := mkImageIssue im
    if issue.alt || issue.missingFormats || issue.oversized then
      issue :: analyzeImagesGo rest
    else
      analyzeImagesGo rest

/-- Direct translation of `analyzeImages`: collect flagged images in document
order, then `issues.slice(0, 10)`. -/
def analyzeImages (imgs : List Image) : List ImageIssue :=
  (analyzeImagesGo imgs).take 10

/-- The qualification predicate of the image inspector, written the way the
claim states it: missing or blank-after-trim `alt`, `src` lacking `.webp`, or
`src` containing an oversize marker substring. -/
def imageQualifies (im : Image) : Bool :=
  (im.alt.isNone || strTrim (im.alt.getD "") == "")
    || !(strContains (im.src.getD "") ".webp")
    || (strContains (im.src.getD "") "large"
        || strContains (im.src.getD "") "big"
        || strContains (im.src.getD "") "original")

/-! ## WHATWG URL model

The source relies on the platform's `URL` class. A parsed URL is modelled as
its components; parsing itself (`new URL(...)`, which may throw) is an oracle
function in the environment, returning `none` for a throw. -/

/-- A parsed WHATWG URL: protocol (with trailing colon, e.g. `"https:"`),
hostname, port suffix (`""` or `":8080"`), and the remaining serialization
(path, query, fragment). -/
structure Url where
  protocol : String
  host : String
  portSuffix : String
  tail : String
deriving DecidableEq, Repr

/-- Model of `URL.prototype.origin`. -/
def Url.origin (u : Url) : String :=
  u.protocol ++ "//" ++ u.host ++ u.portSuffix

/-- Model of `URL.prototype.toString`. -/
def Url.toStr (u : Url) : String :=
  u.origin ++ u.tail

/-! ## Link health prober (`checkBrokenLinks`, lines 121–156) -/

/-- Loop of `checkBrokenLinks`. State: remaining anchors (each anchor is its
`href` attribute, possibly absent), the `checked` dedup set, the attempted-probe
`count`, and the accumulated issue array. `resolve2 href base` models
`new URL(href, baseUrl)` (`none` for a throw); `linkFetch u` models the HEAD
request (`Except.error` for a network throw, otherwise the status). -/
def checkBrokenLinksGo (resolve2 : String → String → Option Url)
    (linkFetch : String → Except String Int) (baseUrl : String) (limit : Nat) :
    List (Option String) → List String → Nat → List LinkIssue → List LinkIssue
  | [], _, _, acc => acc
  | a :: rest, checked, count, acc =>
    if count < limit then
      let href := a.getD ""
      if href == "" || strStartsWith href "#" || checked.contains href then
        checkBrokenLinksGo resolve2 linkFetch baseUrl limit rest checked count acc
      else
        match resolve2 href baseUrl with
        | none =>
          checkBrokenLinksGo resolve2 linkFetch baseUrl limit rest (href :: checked) (count + 1)
            (acc ++ [{ url := href.take 80, statusCode := none, broken := true }])
        | some u =>
          match linkFetch u.toStr with
          | .error _ =>
            checkBrokenLinksGo resolve2 linkFetch baseUrl limit rest (href :: checked) (count + 1)
              (acc ++ [{ url := href.take 80, statusCode := none, broken := true }])
          | .ok st =>
            if 400 ≤ st then
              checkBrokenLinksGo resolve2 linkFetch baseUrl limit rest (href :: checked) (count + 1)
                (acc ++ [{ url := href.take 80, statusCode := some st, broken := decide (400 ≤ st) }])
            else
              checkBrokenLinksGo resolve2 linkFetch baseUrl limit rest (href :: checked) (count + 1) acc
    else acc

/-- Direct translation of `checkBrokenLinks`; the source's default sample limit
is `limit = 5`, and the orchestrator calls it with `3`. -/
def checkBrokenLinks (resolve2 : String → String → Option Url)
    (linkFetch : String → Except String Int) (anchors : List (Option String))
    (baseUrl : String) (limit : Nat := 5) : List LinkIssue :=
  checkBrokenLinksGo resolve2 linkFetch baseUrl limit anchors [] 0 []

/-- Reference description of which hrefs the prober attempts, in document
order: empty hrefs, fragment-only hrefs and hrefs already seen are skipped
without consuming the probe budget. -/
def eligibleHrefs (checked : List String) : List (Option String) → List String
  | [] => []
  | a :: rest =>
    let href := a.getD ""
    if href == "" || strStartsWith href "#" || checked.contains href then
      eligibleHrefs checked rest
    else
      href :: eligibleHrefs (href :: checked) rest

/-- Reference description of one probe attempt: the issue recorded for an
attempted href, or `none` when the probe found no problem. -/
def linkProbeOutcome (resolve2 : String → String → Option Url)
    (linkFetch : String → Except String Int) (baseUrl : String) (href : String) :
    Option LinkIssue :=
  match resolve2 href baseUrl with
  | none => some { url := href.take 80, statusCode := none, broken := true }
  | some u =>
    match linkFetch u.toStr with
    | .error _ => some { url := href.take 80, statusCode := none, broken := true }
    | .ok st =>
      if 400 ≤ st then
        some { url := href.take 80, statusCode := some st, broken := decide (400 ≤ st) }
      else none

/-! ## Redirect consistency checker (`checkRedirects`, lines 159–195) -/

/-- Strip a leading `www.` from a hostname, modelling
`hostname.replace(/^www\./, "")`. -/
def stripWwwDot (h : String) : String :=
  if strStartsWith h "www." then String.mk (h.toList.drop 4) else h

/-- The `www`-prefixed variant the checker synthesizes: the hostname is
prefixed with `www.` only when it does not already start with `www`. -/
def wwwVariant (parsed : Url) : Url :=
  if !(strStartsWith parsed.host "www") then
    { parsed with host := "www." ++ parsed.host }
  else parsed

/-- Direct translation of `checkRedirects`. `parse1` models `new URL(url)`
(`none` for a throw, absorbed by the outer catch); `redirectFetch` models the
redirect-following GET probe, returning the final `res.url` or `none` for a
network throw (absorbed by the inner catch). The non-www and http variants are
computed exactly as in the source but never probed. -/
def checkRedirects (parse1 : String → Option Url)
    (redirectFetch : String → Option String) (url : String) : List RedirectIssue :=
  match parse1 url with
  | none => []
  | some parsed =>
    let www := wwwVariant parsed
    let _nonWww :=
      if strStartsWith parsed.host "www" then { parsed with host := stripWwwDot parsed.host }
      else parsed
    let _http :=
      if parsed.protocol == "https:" then { parsed with protocol := "http:" } else parsed
    if www.host != parsed.host then
      match redirectFetch www.toStr with
      | none => []
      | some resUrl =>
        if resUrl != www.toStr && !(strStartsWith resUrl parsed.origin) then
          [{ type := RedirectType.www, message := "Inconsistent www redirect behavior" }]
        else []
    else []

/-! ## Viewport and mixed-content scanners (lines 81–94)

Both source functions are regex tests over the raw markup; they are modelled
as character scanners over the lowercased text (the regexes carry the `i`
flag). -/

/-- Optional quote then the literal `viewport`, modelling `["']?viewport`. -/
def quoteViewport (l : List Char) : Bool :=
  match l with
  | [] => false
  | q :: t =>
    if q == '"' || q.toNat == 39 then charsStartWith "viewport".toList t
    else charsStartWith "viewport".toList (q :: t)

/-- Search for `name=["']?viewport` among the in-tag characters (stopping at
`>`), modelling the tail of `<meta[^>]+name=["']?viewport`. -/
def nameViewportScan : List Char → Bool
  | [] => false
  | c :: rest =>
    (charsStartWith "name=".toList (c :: rest) && quoteViewport ((c :: rest).drop 5))
    || (c != '>' && nameViewportScan rest)

/-- After a `<meta` match: the `[^>]+` part must consume at least one
non-`>` character before `name=` may start. -/
def viewportAfterMeta : List Char → Bool
  | [] => false
  | d :: rest => d != '>' && nameViewportScan rest

/-- Scan for an occurrence of the whole viewport pattern. -/
def cvScan : List Char → Bool
  | [] => false
  | c :: tl =>
    (charsStartWith "<meta".toList (c :: tl) && viewportAfterMeta ((c :: tl).drop 5))
    || cvScan tl

/-- Model of `checkViewportMeta` (line 92): case-insensitive test of
`<meta[^>]+name=["']?viewport["']?` (the trailing optional quote always
matches and is dropped). -/
def checkViewportMeta (html : String) : Bool :=
  cvScan (strToLower html).toList

/-- Scan for `http://` not followed by `localhost`. -/
def mcScan : List Char → Bool
  | [] => false
  | c :: tl =>
    (charsStartWith "http://".toList (c :: tl)
      && !(charsStartWith "localhost".toList ((c :: tl).drop 7)))
    || mcScan tl

/-- Model of `hasMixedContentWarning` (lines 81–89): the first pattern
`http://(?!localhost)` (case-insensitive) subsumes the three tag-specific
patterns, so the `some` over the pattern array reduces to it. -/
def hasMixedContentWarning (html : String) : Bool :=
  mcScan (strToLower html).toList

/-! ## Orchestrator (`runAudit`, lines 211–345) -/

/-- Direct translation of `safeOrigin` (lines 57–63); `parse1` models
`new URL(input)`, with `none` for a throw. -/
def safeOrigin (parse1 : String → Option Url) (input : String) : Option String :=
  match parse1 input with
  | some u => some u.origin
  | none => none

/-- The anchor filter computing `externalLinks` (lines 290–299): anchors with
empty or unresolvable hrefs are not external; otherwise the anchor is external
iff its resolved origin differs from `origin ?? u.origin`. -/
def anchorIsExternal (resolve2 : String → String → Option Url)
    (origin : Option String) (targetUrl : String) (a : Option String) : Bool :=
  let href := a.getD ""
  if href == "" then false
  else
    match resolve2 href targetUrl with
    | none => false
    | some u => u.origin != origin.getD u.origin

/-- The robots/sitemap probe block (lines 324–336): three sequential GET
probes inside a single try/catch; a throw skips the remaining assignments and
is otherwise ignored. Returns the final `(hasRobots, hasSitemap)` pair given
the values the fields held on entry. -/
def probeRobotsSitemap (auxFetch : String → Except String Bool) (origin : String)
    (hasRobots0 hasSitemap0 : Bool) : Bool × Bool :=
  match auxFetch (origin ++ "/robots.txt") with
  | .error _ => (hasRobots0, hasSitemap0)
  | .ok rOk =>
    match auxFetch (origin ++ "/sitemap.xml") with
    | .error _ => (rOk, hasSitemap0)
    | .ok s1 =>
      match auxFetch (origin ++ "/sitemap_index.xml") with
      | .error _ => (rOk, hasSitemap0)
      | .ok s2 => (rOk, s1 || s2)

/-- The primary fetch response: status, elapsed wall-clock time, headers,
post-redirect URL, and the outcome of `res.text()` (which may throw). -/
structure PrimResp where
  status : Int
  elapsedMs : Nat
  contentType : Option String
  hsts : Option String
  finalUrl : String
  textResult : Except String String

/-- The inventories cheerio extracts from a parsed document: title text, meta
description attribute, h1 count, image and anchor inventories, script and
inline-style counts. -/
structure Doc where
  titleText : String
  metaDescription : Option String
  h1Count : Nat
  images : List Image
  anchors : List (Option String)
  scriptsCount : Nat
  inlineStylesCount : Nat

/-- The effect environment of one `runAudit` invocation: the primary fetch
outcome, cheerio parsing, WHATWG URL parsing (absolute and relative), the
HEAD link probe, the GET auxiliary probe, the redirect-following probe, and
the `Math.random()` sample. `Except.error` / `none` model thrown exceptions. -/
structure Env where
  primary : Except String PrimResp
  parseHtml : String → Except String Doc
  parseUrl1 : String → Option Url
  parseUrl2 : String → String → Option Url
  linkFetch : String → Except String Int
  auxFetch : String → Except String Bool
  redirectFetch : String → Option String
  rand : ℚ

/-- The initial report record (lines 212–241): every measurement field at its
zero/empty default. -/
def defaultResult (targetUrl : String) : AuditResult where
  url := targetUrl
  status := none
  responseTimeMs := none
  contentType := none
  title := none
  metaDescription := none
  h1Count := some 0
  totalImages := some 0
  imgWithoutAlt := some 0
  imageIssues := some []
  totalLinks := some 0
  brokenLinks := some []
  externalLinks := some 0
  scriptsCount := some 0
  inlineStylesCount := some 0
  hasRobots := some false
  hasSitemap := some false
  ttfbMs := some 0
  fcpMs := some 0
  lcpMs := some 0
  hasViewport := some false
  responsive := some false
  isHttps := some false
  hasHsts := some false
  hasMixedContent := some false
  redirects := some []
  score := some 0
  error := none

/-- Direct translation of `runAudit` (lines 211–345) over the effect
environment. The recomputation of a null origin at lines 320–322 collapses to
`origin.getD ""` because `safeOrigin` is deterministic within one run. -/
def runAudit (env : Env) (targetUrl : String) : AuditResult :=
  let result0 := defaultResult targetUrl
  let origin := safeOrigin env.parseUrl1 targetUrl
  match env.primary with
  | .error e => { result0 with error := some e }
  | .ok resp =>
    let r1 := { result0 with
      status := some resp.status
      responseTimeMs := some resp.elapsedMs
      contentType := resp.contentType
      isHttps := some (strStartsWith resp.finalUrl "https:")
      hasHsts := some (!(resp.hsts.getD "" == "")) }
    match resp.textResult with
    | .error e => { r1 with error := some e }
    | .ok html =>
      let m := estimateMetrics resp.elapsedMs html.length env.rand
      let r2 := { r1 with
        ttfbMs := some (jsRound m.1)
        fcpMs := some (jsRound m.2.1)
        lcpMs := some (jsRound m.2.2) }
      if html == "" then r2
      else
        match env.parseHtml html with
        | .error e => { r2 with error := some e }
        | .ok doc =>
          let r3 := { r2 with
            title := if strTrim doc.titleText == "" then none else some (strTrim doc.titleText)
            metaDescription := match doc.metaDescription with
              | none => none
              | some s => if s == "" then none else some s
            h1Count := some doc.h1Count
            totalImages := some doc.images.length
            imgWithoutAlt := some ((doc.images.filter fun (im : Image) =>
              im.alt.isNone || strTrim (im.alt.getD "") == "").length)
            imageIssues := some (analyzeImages doc.images)
            totalLinks := some doc.anchors.length
            externalLinks := some ((doc.anchors.filter
              (anchorIsExternal env.parseUrl2 origin targetUrl)).length)
            scriptsCount := some doc.scriptsCount
            inlineStylesCount := some doc.inlineStylesCount
            hasViewport := some (checkViewportMeta html)
            responsive := some (checkViewportMeta html)
            hasMixedContent := some (hasMixedContentWarning html)
            brokenLinks := some (checkBrokenLinks env.parseUrl2 env.linkFetch doc.anchors targetUrl 3) }
          let originStr := origin.getD ""
          let probed :=
            if !(originStr == "") then
              probeRobotsSitemap env.auxFetch originStr (r3.hasRobots.getD false)
                (r3.hasSitemap.getD false)
            else (r3.hasRobots.getD false, r3.hasSitemap.getD false)
          let r4 := { r3 with hasRobots := some probed.1, hasSitemap := some probed.2 }
          let r5 := { r4 with
            redirects := some (checkRedirects env.parseUrl1 env.redirectFetch targetUrl) }
          { r5 with score := some (calculateScore r5) }

/-! ## Concrete environments used by witnesses and counterexamples -/

/-- Environment whose primary fetch fails at the network level. -/
def envDown : Env where
  primary := .error "fetch failed"
  parseHtml := fun _ => .error "no parse"
  parseUrl1 := fun _ => none
  parseUrl2 := fun _ _ => none
  linkFetch := fun _ => .error "net"
  auxFetch := fun _ => .error "net"
  redirectFetch := fun _ => none
  rand := 0

/-- Response whose body reads as the empty string. -/
def respEmpty : PrimResp where
  status := 204
  elapsedMs := 80
  contentType := some "text/html"
  hsts := none
  finalUrl := "https://site.test/"
  textResult := .ok ""

/-- Environment where the primary fetch succeeds but the body is empty. -/
def envEmpty : Env where
  primary := .ok respEmpty
  parseHtml := fun _ => .error "no parse"
  parseUrl1 := fun s => if s == "https://site.test/" then
      some { protocol := "https:", host := "site.test", portSuffix := "", tail := "/" } else none
  parseUrl2 := fun _ _ => none
  linkFetch := fun _ => .error "net"
  auxFetch := fun _ => .error "net"
  redirectFetch := fun _ => none
  rand := 0

/-- A small fixed markup body. -/
def htmlAux : String := "<html><head><title>Hi</title></head><body>ok</body></html>"

/-- The inventories cheerio extracts from `htmlAux`. -/
def docAux : Doc where
  titleText := "Hi"
  metaDescription := none
  h1Count := 0
  images := []
  anchors := []
  scriptsCount := 0
  inlineStylesCount := 0

/-- A successful primary response carrying `htmlAux`. -/
def respAux : PrimResp where
  status := 200
  elapsedMs := 120
  contentType := some "text/html"
  hsts := some "max-age=63072000"
  finalUrl := "https://site.test/"
  textResult := .ok htmlAux

/-- Environment with a full successful pipeline in which the robots probe
throws while the sitemap.xml probe would answer with a success status. -/
def envAux : Env where
  primary := .ok respAux
  parseHtml := fun s => if s == htmlAux then .ok docAux else .error "parse error"
  parseUrl1 := fun s => if s == "https://site.test/" then
      some { protocol := "https:", host := "site.test", portSuffix := "", tail := "/" } else none
  parseUrl2 := fun _ _ => none
  linkFetch := fun _ => .error "net"
  auxFetch := fun s =>
    if s == "https://site.test/robots.txt" then .error "net"
    else if s == "https://site.test/sitemap.xml" then .ok true
    else .ok false
  redirectFetch := fun _ => none
  rand := 0

/-- Inventories containing a single anchor whose href does not resolve. -/
def docLink : Doc where
  titleText := ""
  metaDescription := none
  h1Count := 0
  images := []
  anchors := [some "::bad"]
  scriptsCount := 0
  inlineStylesCount := 0

/-- Environment whose document holds one unresolvable anchor href. -/
def envLink : Env where
  primary := .ok respAux
  parseHtml := fun s => if s == htmlAux then .ok docLink else .error "parse error"
  parseUrl1 := fun s => if s == "https://site.test/" then
      some { protocol := "https:", host := "site.test", portSuffix := "", tail := "/" } else none
  parseUrl2 := fun _ _ => none
  linkFetch := fun _ => .error "net"
  auxFetch := fun _ => .ok false
  redirectFetch := fun _ => none
  rand := 0

/-- The `(hasRobots, hasSitemap)` pair the auxiliary-resource stage leaves in
the report for a given environment and target. -/
def auditProbePair (env : Env) (targetUrl : String) : Bool × Bool :=
  let originStr := (safeOrigin env.parseUrl1 targetUrl).getD ""
  if !(originStr == "") then probeRobotsSitemap env.auxFetch originStr false false
  else (false, false)

/-- The report `runAudit` assembles on the full-success path (successful fetch,
non-empty body, successful parse), written out field by field; its `score`
still holds the zero default, which the orchestrator's last step replaces by
the scorer's output on this record. -/
def populatedReport (env : Env) (targetUrl : String) (resp : PrimResp)
    (html : String) (doc : Doc) : AuditResult where
  url := targetUrl
  status := some resp.status
  responseTimeMs := some resp.elapsedMs
  contentType := resp.contentType
  title := if strTrim doc.titleText == "" then none else some (strTrim doc.titleText)
  metaDescription := match doc.metaDescription with
    | none => none
    | some s => if s == "" then none else some s
  h1Count := some doc.h1Count
  totalImages := some doc.images.length
  imgWithoutAlt := some ((doc.images.filter fun (im : Image) =>
    im.alt.isNone || strTrim (im.alt.getD "") == "").length)
  imageIssues := some (analyzeImages doc.images)
  totalLinks := some doc.anchors.length
  brokenLinks := some (checkBrokenLinks env.parseUrl2 env.linkFetch doc.anchors targetUrl 3)
  externalLinks := some ((doc.anchors.filter
    (anchorIsExternal env.parseUrl2 (safeOrigin env.parseUrl1 targetUrl) targetUrl)).length)
  scriptsCount := some doc.scriptsCount
  inlineStylesCount := some doc.inlineStylesCount
  hasRobots := some (auditProbePair env targetUrl).1
  hasSitemap := some (auditProbePair env targetUrl).2
  ttfbMs := some (jsRound (estimateMetrics resp.elapsedMs html.length env.rand).1)
  fcpMs := some (jsRound (estimateMetrics resp.elapsedMs html.length env.rand).2.1)
  lcpMs := some (jsRound (estimateMetrics resp.elapsedMs html.length env.rand).2.2)
  hasViewport := some (checkViewportMeta html)
  responsive := some (checkViewportMeta html)
  isHttps := some (strStartsWith resp.finalUrl "https:")
  hasHsts := some (!(resp.hsts.getD "" == ""))
  hasMixedContent := some (hasMixedContentWarning html)
  redirects := some (checkRedirects env.parseUrl1 env.redirectFetch targetUrl)
  score := some 0
  error := none

/-! ## Theorems -/

theorem analyzeImagesGo_eq (imgs : List Image) :
    analyzeImagesGo imgs = (imgs.filter imageQualifies).map mkImageIssue := by
  induction imgs with
  | nil => rfl
  | cons im rest ih =>
    simp only [analyzeImagesGo, List.filter_cons]
    have hq : ((mkImageIssue im).alt || (mkImageIssue im).missingFormats
        || (mkImageIssue im).oversized) = imageQualifies im := by
      simp [mkImageIssue, imageQualifies, Bool.or_assoc]
    rw [hq]
    cases h : imageQualifies im with
    | true => simp [ih]
    | false => simp [ih]

/-- claim C2: the computed score equals 100 minus the six independent additive
deductions (15 for insecure scheme, 10 for missing viewport,
min(5, imagesWithoutAlt), min(10, 2·brokenLinkCount), 10 for mixed content,
5 for latency over 3000 ms) clamped below at 0, and every computed score lies
in [0, 100]. -/
theorem claim2_score_deductions (r : AuditResult) :
    calculateScore r =
      max 0 (100 - (if r.isHttps.getD false then 0 else 15)
                 - (if r.hasViewport.getD false then 0 else 10)
                 - min 5 ((r.imgWithoutAlt.getD 0 : Int))
                 - min 10 (2 * ((r.brokenLinks.getD []).length : Int))
                 - (if r.hasMixedContent.getD false then 10 else 0)
                 - (if 3000 < r.responseTimeMs.getD 0 then 5 else 0))
    ∧ 0 ≤ calculateScore r ∧ calculateScore r ≤ 100 := by
  unfold calculateScore
  cases hH : r.isHttps.getD false <;> cases hV : r.hasViewport.getD false <;>
    cases hM : r.hasMixedContent.getD false <;>
      simp only [Bool.not_true, Bool.not_false, if_true, if_false, Bool.false_eq_true,
        Bool.true_eq_false, ite_true, ite_false] <;>
      constructor <;> try constructor
  all_goals
    split_ifs <;> omega

/-- claim C6: the image-issue list contains an image iff at least one flag is
true (missing/blank alt, no `.webp` in src, oversize marker in src), preserves
document order, and is the first-10 truncation, so its length is at most 10 and
at most the total image count. -/
theorem claim6_image_issues (imgs : List Image) :
    analyzeImages imgs = ((imgs.filter imageQualifies).map mkImageIssue).take 10
    ∧ (analyzeImages imgs).length ≤ 10
    ∧ (analyzeImages imgs).length ≤ imgs.length := by
  refine ⟨?_, ?_, ?_⟩
  · rw [analyzeImages, analyzeImagesGo_eq]
  · exact (List.length_take 10 _).trans_le (min_le_left _ _)
  · calc (analyzeImages imgs).length
        ≤ (analyzeImagesGo imgs).length := by
          rw [analyzeImages]; exact (List.length_take 10 _).trans_le (min_le_right _ _)
      _ ≤ imgs.length := by
          rw [analyzeImagesGo_eq, List.length_map]; exact List.length_filter_le _ _

/-- claim C7: the estimator yields ttfb = max(latency − 50, 0),
fcp = ttfb + min(size / 100, 500), lcp = fcp + jitter with jitter in [0, 800),
and the three rounded report values are never negative. -/
theorem claim7_estimate_metrics (latency htmlSize : Nat) (rand : ℚ)
    (h0 : 0 ≤ rand) (h1 : rand < 1) :
    (estimateMetrics latency htmlSize rand).1 = max ((latency : ℚ) - 50) 0
    ∧ (estimateMetrics latency htmlSize rand).2.1 =
        (estimateMetrics latency htmlSize rand).1 + min ((htmlSize : ℚ) / 100) 500
    ∧ (∃ jitter : ℚ, 0 ≤ jitter ∧ jitter < 800 ∧
        (estimateMetrics latency htmlSize rand).2.2 =
          (estimateMetrics latency htmlSize rand).2.1 + jitter)
    ∧ 0 ≤ jsRound (estimateMetrics latency htmlSize rand).1
    ∧ 0 ≤ jsRound (estimateMetrics latency htmlSize rand).2.1
    ∧ 0 ≤ jsRound (estimateMetrics latency htmlSize rand).2.2 := by
  have httfb : (0 : ℚ) ≤ (estimateMetrics latency htmlSize rand).1 := le_max_right _ _
  have hmin : (0 : ℚ) ≤ min ((htmlSize : ℚ) / 100) 500 :=
    le_min (by positivity) (by norm_num)
  have hfcp : (0 : ℚ) ≤ (estimateMetrics latency htmlSize rand).2.1 :=
    add_nonneg httfb hmin
  have hlcp : (0 : ℚ) ≤ (estimateMetrics latency htmlSize rand).2.2 :=
    add_nonneg hfcp (by positivity)
  have hround : ∀ q : ℚ, 0 ≤ q → 0 ≤ jsRound q := by
    intro q hq
    rw [jsRound, Int.le_floor]
    push_cast
    linarith
  refine ⟨rfl, rfl, ⟨rand * 800, by positivity, by linarith, rfl⟩,
    hround _ httfb, hround _ hfcp, hround _ hlcp⟩

/-- witness for claim C7 at latency 100 ms, body size 1000 bytes, jitter
sample 1/2. -/
theorem claim7_estimate_metrics_witness :
    (estimateMetrics 100 1000 (1 / 2)).1 = max ((100 : ℚ) - 50) 0
    ∧ (estimateMetrics 100 1000 (1 / 2)).2.1 =
        (estimateMetrics 100 1000 (1 / 2)).1 + min ((1000 : ℚ) / 100) 500
    ∧ (∃ jitter : ℚ, 0 ≤ jitter ∧ jitter < 800 ∧
        (estimateMetrics 100 1000 (1 / 2)).2.2 =
          (estimateMetrics 100 1000 (1 / 2)).2.1 + jitter)
    ∧ 0 ≤ jsRound (estimateMetrics 100 1000 (1 / 2)).1
    ∧ 0 ≤ jsRound (estimateMetrics 100 1000 (1 / 2)).2.1
    ∧ 0 ≤ jsRound (estimateMetrics 100 1000 (1 / 2)).2.2 := by
  have h := claim7_estimate_metrics 100 1000 (1 / 2) (by norm_num) (by norm_num)
  exact_mod_cast h

theorem checkBrokenLinksGo_eq (resolve2 : String → String → Option Url)
    (linkFetch : String → Except String Int) (baseUrl : String) (limit : Nat)
    (anchors : List (Option String)) (checked : List String) (count : Nat)
    (acc : List LinkIssue) :
    checkBrokenLinksGo resolve2 linkFetch baseUrl limit anchors checked count acc =
      acc ++ ((eligibleHrefs checked anchors).take (limit - count)).filterMap
        (linkProbeOutcome resolve2 linkFetch baseUrl) := by
  induction anchors generalizing checked count acc with
  | nil => simp [checkBrokenLinksGo, eligibleHrefs]
  | cons a rest ih =>
    by_cases hc : count < limit
    · have hsub : limit - count ≠ 0 := by omega
      by_cases hskip : ((a.getD "" == "" || strStartsWith (a.getD "") "#"
          || checked.contains (a.getD "")) = true)
      · rw [checkBrokenLinksGo, if_pos hc, if_pos hskip, eligibleHrefs, if_pos hskip, ih]
      · rw [checkBrokenLinksGo, if_pos hc]
        rw [eligibleHrefs]
        rw [if_neg hskip]
        have htake : ∀ l : List String, (a.getD "" :: l).take (limit - count) =
            a.getD "" :: l.take (limit - (count + 1)) := by
          intro l
          have h1 : limit - count = (limit - (count + 1)) + 1 := by omega
          rw [h1, List.take_succ_cons]
        simp only [if_neg hskip, htake, List.filterMap_cons]
        cases hres : resolve2 (a.getD "") baseUrl with
        | none =>
          simp only [linkProbeOutcome, hres, ih]
          try simp
        | some u =>
          cases hfetch : linkFetch u.toStr with
          | error e =>
            simp only [linkProbeOutcome, hres, hfetch, ih]
            try simp
          | ok st =>
            by_cases hst : 400 ≤ st
            · simp only [linkProbeOutcome, hres, hfetch, if_pos hst, ih]
              try simp
            · simp only [linkProbeOutcome, hres, hfetch, if_neg hst, ih]
              try simp
    · rw [checkBrokenLinksGo, if_neg hc]
      have : limit - count = 0 := by omega
      simp [this]

/-- counterexample to claim C4: invoking `checkBrokenLinks` with its default
sample limit on six distinct probe-worthy anchors records five broken links,
so the default limit is 5, not 3. -/
theorem claim4_default_limit_counterexample :
    (checkBrokenLinks
        (fun href _ => some { protocol := "https:", host := "e.com", portSuffix := "", tail := "/" ++ href })
        (fun _ => .ok 404)
        [some "a", some "b", some "c", some "d", some "e", some "f"]
        "https://e.com").length = 5
    ∧ ¬ ((checkBrokenLinks
        (fun href _ => some { protocol := "https:", host := "e.com", portSuffix := "", tail := "/" ++ href })
        (fun _ => .ok 404)
        [some "a", some "b", some "c", some "d", some "e", some "f"]
        "https://e.com").length ≤ 3) := by
  constructor <;> decide

/-- claim C4 as amended: the broken-link collection is exactly the issues found
on the first `limit` eligible hrefs in document order (empty, fragment-only and
already-checked hrefs are skipped without consuming the budget; every attempted
probe consumes the budget whether or not an issue is recorded), hence its
length never exceeds the limit; the source's default limit is 5, and the
orchestrator passes 3. -/
theorem claim4_sample_limit (resolve2 : String → String → Option Url)
    (linkFetch : String → Except String Int) (anchors : List (Option String))
    (baseUrl : String) (limit : Nat) :
    checkBrokenLinks resolve2 linkFetch anchors baseUrl limit =
      ((eligibleHrefs [] anchors).take limit).filterMap
        (linkProbeOutcome resolve2 linkFetch baseUrl)
    ∧ (checkBrokenLinks resolve2 linkFetch anchors baseUrl limit).length ≤ limit
    ∧ checkBrokenLinks resolve2 linkFetch anchors baseUrl =
        checkBrokenLinks resolve2 linkFetch anchors baseUrl 5 := by
  have h := checkBrokenLinksGo_eq resolve2 linkFetch baseUrl limit anchors [] 0 []
  rw [Nat.sub_zero] at h
  refine ⟨h, ?_, rfl⟩
  rw [checkBrokenLinks, h, List.nil_append]
  calc (((eligibleHrefs [] anchors).take limit).filterMap
        (linkProbeOutcome resolve2 linkFetch baseUrl)).length
      ≤ ((eligibleHrefs [] anchors).take limit).length := List.length_filterMap_le _ _
    _ ≤ limit := (List.length_take _ _).trans_le (min_le_left _ _)

theorem wwwHost_ne (h : String) : ("www." ++ h) ≠ h := by
  intro e
  have hl := congrArg String.length e
  rw [String.length_append] at hl
  have : ("www." : String).length = 4 := by decide
  omega

/-- claim C8: the redirect checker probes only the www-prefixed variant and
only when the original hostname lacks the `www` prefix; an issue is recorded
iff that probe succeeds with a final URL that neither equals the synthesized
www URL nor starts with the original origin; probe failure yields no issue;
and the output depends on the prober only through its answer at the www URL
(the non-www and protocol-downgrade variants are never probed). -/
theorem claim8_redirect_checker (parse1 : String → Option Url)
    (rf : String → Option String) (url : String) :
    (parse1 url = none → checkRedirects parse1 rf url = [])
    ∧ (∀ p, parse1 url = some p → strStartsWith p.host "www" = true →
        checkRedirects parse1 rf url = [])
    ∧ (∀ p, parse1 url = some p → strStartsWith p.host "www" = false →
        (rf (wwwVariant p).toStr = none → checkRedirects parse1 rf url = [])
        ∧ (∀ fu, rf (wwwVariant p).toStr = some fu →
            checkRedirects parse1 rf url =
              if fu != (wwwVariant p).toStr && !(strStartsWith fu p.origin) then
                [{ type := RedirectType.www, message := "Inconsistent www redirect behavior" }]
              else []))
    ∧ (∀ rf2 : String → Option String,
        (∀ p, parse1 url = some p → rf (wwwVariant p).toStr = rf2 (wwwVariant p).toStr) →
        checkRedirects parse1 rf url = checkRedirects parse1 rf2 url) := by
  refine ⟨?_, ?_, ?_, ?_⟩
  · intro hp
    simp [checkRedirects, hp]
  · intro p hp hwww
    have hv : wwwVariant p = p := by
      simp [wwwVariant, hwww]
    simp [checkRedirects, hp, hv]
  · intro p hp hwww
    have hv : wwwVariant p = { p with host := "www." ++ p.host } := by
      simp [wwwVariant, hwww]
    have hguard : (({ p with host := "www." ++ p.host } : Url).host != p.host) = true := by
      simp only [bne_iff_ne, ne_eq]
      exact wwwHost_ne p.host
    constructor
    · intro hf
      rw [hv] at hf
      simp only [checkRedirects, hp, hv, hguard, if_true]
      simp [hf]
    · intro fu hf
      rw [hv] at hf
      simp only [checkRedirects, hp, hv, hguard, if_true]
      simp only [hf]
      try rw [hv]
  · intro rf2 hagree
    cases hp : parse1 url with
    | none => simp [checkRedirects, hp]
    | some p =>
      have h := hagree p hp
      simp only [checkRedirects, hp, h]

/-- witness for claim C8: a non-www target whose www variant probe lands on a
foreign origin yields exactly the www inconsistency issue. -/
theorem claim8_redirect_checker_witness :
    checkRedirects
      (fun s => if s == "https://example.com/" then
          some { protocol := "https:", host := "example.com", portSuffix := "", tail := "/" } else none)
      (fun s => if s == "https://www.example.com/" then some "https://other.test/" else none)
      "https://example.com/"
      = [{ type := RedirectType.www, message := "Inconsistent www redirect behavior" }] := by
  have h := ((claim8_redirect_checker
      (fun s => if s == "https://example.com/" then
          some { protocol := "https:", host := "example.com", portSuffix := "", tail := "/" } else none)
      (fun s => if s == "https://www.example.com/" then some "https://other.test/" else none)
      "https://example.com/").2.2.1
      { protocol := "https:", host := "example.com", portSuffix := "", tail := "/" }
      (by decide) (by decide)).2 "https://other.test/" (by decide)
  rw [h]
  decide

/-- claim C1: when the primary fetch fails at the network level, the report is
exactly the default record with `error` set to the failure description — score
0, null status, empty issue collections, false flags — and its score is not
the deduction formula's output on that report. -/
theorem claim1_fetch_failure (env : Env) (targetUrl msg : String)
    (h : env.primary = .error msg) :
    runAudit env targetUrl = { defaultResult targetUrl with error := some msg }
    ∧ (runAudit env targetUrl).score = some 0
    ∧ (runAudit env targetUrl).score ≠ some (calculateScore (runAudit env targetUrl)) := by
  have hrun : runAudit env targetUrl = { defaultResult targetUrl with error := some msg } := by
    simp only [runAudit, h]
  refine ⟨hrun, by rw [hrun]; rfl, ?_⟩
  rw [hrun]
  have : calculateScore { defaultResult targetUrl with error := some msg } = 75 := by
    simp [calculateScore, defaultResult]
  rw [this]
  show (some 0 : Option Int) ≠ some 75
  decide

/-- witness for claim C1 on a concrete failing environment. -/
theorem claim1_fetch_failure_witness :
    runAudit envDown "https://down.example" =
      { defaultResult "https://down.example" with error := some "fetch failed" }
    ∧ (runAudit envDown "https://down.example").score = some 0
    ∧ (runAudit envDown "https://down.example").score ≠
        some (calculateScore (runAudit envDown "https://down.example")) :=
  claim1_fetch_failure envDown "https://down.example" "fetch failed" rfl

/-- claim C10: `runAudit` is a total function into reports — every exception of
the fetch, body read, markup parse, or probes is a caught environment outcome —
and the returned report's `url` equals the input string unchanged, whether or
not the input parses as a URL. -/
theorem claim10_url_preserved (env : Env) (targetUrl : String) :
    (runAudit env targetUrl).url = targetUrl := by
  cases hp : env.primary with
  | error e => simp [runAudit, hp, defaultResult]
  | ok resp =>
    cases ht : resp.textResult with
    | error e => simp [runAudit, hp, ht, defaultResult]
    | ok html =>
      cases hh : (html == "") with
      | true => simp [runAudit, hp, ht, hh, defaultResult]
      | false =>
        cases hd : env.parseHtml html with
        | error e => simp [runAudit, hp, ht, hh, hd, defaultResult]
        | ok doc => simp [runAudit, hp, ht, hh, hd, defaultResult]

/-- claim C3 as amended: a report without `error` signals either a fully
completed audit — in which case its `score` is exactly the scorer's output on
the populated report — or the one early return the pipeline allows with no
error: a successful fetch whose body read back empty, which keeps the
unpopulated defaults. -/
theorem claim3_no_error_completion (env : Env) (targetUrl : String)
    (h : (runAudit env targetUrl).error = none) :
    (runAudit env targetUrl).score = some (calculateScore (runAudit env targetUrl))
    ∨ ∃ resp, env.primary = .ok resp ∧ resp.textResult = .ok "" := by
  cases hp : env.primary with
  | error e =>
    exfalso
    simp [runAudit, hp, defaultResult] at h
  | ok resp =>
    cases ht : resp.textResult with
    | error e =>
      exfalso
      simp [runAudit, hp, ht, defaultResult] at h
    | ok html =>
      cases hh : (html == "") with
      | true =>
        right
        refine ⟨resp, rfl, ?_⟩
        rw [ht, eq_of_beq hh]
      | false =>
        cases hd : env.parseHtml html with
        | error e =>
          exfalso
          simp [runAudit, hp, ht, hh, hd, defaultResult] at h
        | ok doc =>
          left
          simp only [runAudit, hp, ht, hh, hd]
          rfl

theorem runAudit_ok_eq (env : Env) (targetUrl : String) (resp : PrimResp)
    (html : String) (doc : Doc)
    (hp : env.primary = .ok resp) (ht : resp.textResult = .ok html)
    (hh : (html == "") = false) (hd : env.parseHtml html = .ok doc) :
    runAudit env targetUrl =
      { populatedReport env targetUrl resp html doc with
        score := some (calculateScore (populatedReport env targetUrl resp html doc)) } := by
  simp only [runAudit, hp, ht, hh, hd, Bool.false_eq_true, if_false]
  rfl

/-- counterexample to claim C3: a successful fetch whose body is empty returns
early with `error` absent, yet the report keeps its zero-score default instead
of the scorer's output (which would be 90 on this report). -/
theorem claim3_counterexample :
    (runAudit envEmpty "https://site.test/").error = none
    ∧ (runAudit envEmpty "https://site.test/").score = some 0
    ∧ (runAudit envEmpty "https://site.test/").score ≠
        some (calculateScore (runAudit envEmpty "https://site.test/")) := by
  refine ⟨by decide, by decide, by decide⟩

/-- witness for claim C3 on an environment that completes the full pipeline. -/
theorem claim3_no_error_completion_witness :
    (runAudit envAux "https://site.test/").score =
        some (calculateScore (runAudit envAux "https://site.test/"))
    ∨ ∃ resp, envAux.primary = .ok resp ∧ resp.textResult = .ok "" :=
  claim3_no_error_completion envAux "https://site.test/" (by decide)

/-- claim C5 as amended: anchors with unresolvable hrefs are excluded from the
external-link count only — the total link count includes every anchor element —
and an anchor counts as external iff its href is nonempty, resolves, and the
resolved origin differs from `origin ?? u.origin` (so with an unavailable base
origin no anchor counts as external); no error is raised. -/
theorem claim5_link_counts (env : Env) (targetUrl : String) (resp : PrimResp)
    (html : String) (doc : Doc)
    (hp : env.primary = .ok resp) (ht : resp.textResult = .ok html)
    (hh : (html == "") = false) (hd : env.parseHtml html = .ok doc) :
    (runAudit env targetUrl).totalLinks = some doc.anchors.length
    ∧ (runAudit env targetUrl).externalLinks =
        some ((doc.anchors.filter
          (anchorIsExternal env.parseUrl2 (safeOrigin env.parseUrl1 targetUrl) targetUrl)).length)
    ∧ (∀ a : Option String,
        anchorIsExternal env.parseUrl2 (safeOrigin env.parseUrl1 targetUrl) targetUrl a = true ↔
          ((a.getD "" == "") = false ∧ ∃ u, env.parseUrl2 (a.getD "") targetUrl = some u ∧
            u.origin ≠ (safeOrigin env.parseUrl1 targetUrl).getD u.origin))
    ∧ (runAudit env targetUrl).error = none := by
  have he := runAudit_ok_eq env targetUrl resp html doc hp ht hh hd
  refine ⟨by rw [he]; rfl, by rw [he]; rfl, ?_, by rw [he]; rfl⟩
  intro a
  rw [anchorIsExternal]
  cases hae : (a.getD "" == "") with
  | true => simp [hae]
  | false =>
    cases hres : env.parseUrl2 (a.getD "") targetUrl with
    | none => simp [hres]
    | some u => simp [hres, bne_iff_ne]

/-- counterexample to claim C5: a document with a single unresolvable anchor
still has a total link count of 1 — unresolvable anchors are excluded from the
external count only, not from the total. -/
theorem claim5_counterexample :
    envLink.parseUrl2 "::bad" "https://site.test/" = none
    ∧ (runAudit envLink "https://site.test/").totalLinks = some 1
    ∧ (runAudit envLink "https://site.test/").externalLinks = some 0 := by
  refine ⟨rfl, by decide, by decide⟩

/-- witness for claim C5 on the concrete unresolvable-anchor environment. -/
theorem claim5_link_counts_witness :
    (runAudit envLink "https://site.test/").totalLinks = some 1
    ∧ (runAudit envLink "https://site.test/").externalLinks = some 0 := by
  have h := claim5_link_counts envLink "https://site.test/" respAux htmlAux docLink
    rfl rfl (by decide) rfl
  exact ⟨h.1.trans (by decide), h.2.1.trans (by decide)⟩

/-- claim C9 as amended: on a completed audit the report's `hasRobots` /
`hasSitemap` flags come from the three-probe block, whose probes run
sequentially inside one guarded block rather than independently: a robots
throw skips both sitemap probes, a sitemap.xml throw skips sitemap_index.xml,
a throw leaves the affected flags at their `false` defaults and never raises a
pipeline error; `hasRobots` is true iff the robots probe returned `ok`, and
`hasSitemap` is true iff no probe threw and some sitemap probe returned `ok`. -/
theorem claim9_sequential_probes (env : Env) (targetUrl : String) (resp : PrimResp)
    (html : String) (doc : Doc)
    (hp : env.primary = .ok resp) (ht : resp.textResult = .ok html)
    (hh : (html == "") = false) (hd : env.parseHtml html = .ok doc) :
    ((runAudit env targetUrl).hasRobots = some (auditProbePair env targetUrl).1
      ∧ (runAudit env targetUrl).hasSitemap = some (auditProbePair env targetUrl).2
      ∧ (runAudit env targetUrl).error = none)
    ∧ (∀ origin : String,
        (∀ e, env.auxFetch (origin ++ "/robots.txt") = .error e →
          probeRobotsSitemap env.auxFetch origin false false = (false, false))
        ∧ (∀ rOk, env.auxFetch (origin ++ "/robots.txt") = .ok rOk →
            (probeRobotsSitemap env.auxFetch origin false false).1 = rOk)
        ∧ (∀ rOk e, env.auxFetch (origin ++ "/robots.txt") = .ok rOk →
            env.auxFetch (origin ++ "/sitemap.xml") = .error e →
            probeRobotsSitemap env.auxFetch origin false false = (rOk, false))
        ∧ (∀ rOk s1 e, env.auxFetch (origin ++ "/robots.txt") = .ok rOk →
            env.auxFetch (origin ++ "/sitemap.xml") = .ok s1 →
            env.auxFetch (origin ++ "/sitemap_index.xml") = .error e →
            probeRobotsSitemap env.auxFetch origin false false = (rOk, false))
        ∧ (∀ rOk s1 s2, env.auxFetch (origin ++ "/robots.txt") = .ok rOk →
            env.auxFetch (origin ++ "/sitemap.xml") = .ok s1 →
            env.auxFetch (origin ++ "/sitemap_index.xml") = .ok s2 →
            probeRobotsSitemap env.auxFetch origin false false = (rOk, s1 || s2))) := by
  have he := runAudit_ok_eq env targetUrl resp html doc hp ht hh hd
  constructor
  · exact ⟨by rw [he]; rfl, by rw [he]; rfl, by rw [he]; rfl⟩
  · intro origin
    refine ⟨?_, ?_, ?_, ?_, ?_⟩
    · intro e hr
      simp [probeRobotsSitemap, hr]
    · intro rOk hr
      simp only [probeRobotsSitemap, hr]
      cases h1 : env.auxFetch (origin ++ "/sitemap.xml") with
      | error e => rfl
      | ok s1 =>
        cases h2 : env.auxFetch (origin ++ "/sitemap_index.xml") with
        | error e => rfl
        | ok s2 => rfl
    · intro rOk e hr h1
      simp [probeRobotsSitemap, hr, h1]
    · intro rOk s1 e hr h1 h2
      simp [probeRobotsSitemap, hr, h1, h2]
    · intro rOk s1 s2 hr h1 h2
      simp [probeRobotsSitemap, hr, h1, h2]

/-- counterexample to claim C9: the robots probe throws while the sitemap.xml
probe would answer with a success status, yet `hasSitemap` stays false — the
probes are sequenced in one guarded block, not independent. -/
theorem claim9_counterexample :
    envAux.auxFetch "https://site.test/sitemap.xml" = .ok true
    ∧ (runAudit envAux "https://site.test/").hasSitemap = some false
    ∧ (runAudit envAux "https://site.test/").error = none := by
  refine ⟨rfl, by decide, by decide⟩

/-- witness for claim C9 on the concrete environment with a throwing robots
probe. -/
theorem claim9_sequential_probes_witness :
    (runAudit envAux "https://site.test/").hasRobots =
        some (auditProbePair envAux "https://site.test/").1
    ∧ (runAudit envAux "https://site.test/").hasSitemap =
        some (auditProbePair envAux "https://site.test/").2
    ∧ (runAudit envAux "https://site.test/").error = none := by
  have h := claim9_sequential_probes envAux "https://site.test/" respAux htmlAux docAux
    rfl rfl (by decide) rfl
  exact h.1
